import Mathlib

/-!
# Slicer 2 g-code layer: Siemens parser handlers and the base writer

A shallow embedding of

* `src/gcode/parsers/siemens_parser.cpp` (the two alias handlers, the `G1Handler`
  override and `config`), and
* `src/gcode/writers/writer_base.cpp` (constructor, comment helpers, slicer header,
  settings header, settings footer, layer change, feedrate accessors),

followed by the properties established about them.

Conventions of the embedding:

* `QString` is `String`; `%` and `+=` are `++`.
* `m_sb->setting<T>(key)` is a field of the record `SettingsBase`, one field per key
  that the code reads; `setting<int>` used as a condition is `≠ 0`.
* Floating-point values (`Distance`, `Angle`, `Time`, `Velocity`, `double`) are carried
  as rationals; their unit conversion, their arithmetic and `QString::arg` on a double are
  the fields of `DoubleOps`, about which nothing is assumed.
* Code that is declared in headers absent from the sources at hand (`CommonParser`,
  `GcodeMeta`, `GcodeSyntax`, the settings classes) is a parameter or a record whose
  doc comment says so.
-/

namespace ORNL

/-! ## Qt and unit primitives -/

/-- The value carried by a `Distance` setting. -/
abbrev Distance := Rat
/-- The value carried by an `Angle` setting. -/
abbrev Angle := Rat
/-- The value carried by a `Time` setting. -/
abbrev Time := Rat
/-- The value carried by a `Velocity`. -/
abbrev Velocity := Rat

/-- The floating-point operations the writer calls: `Distance::to(mm)`, `Time::operator()`,
division and multiplication of doubles, and the text `QString::arg(double)` puts in place
of a place marker. -/
structure DoubleOps where
  to_mm : Distance → Rat
  time : Time → Rat
  div : Rat → Rat → Rat
  mul : Rat → Rat → Rat
  arg : Rat → String

/-- `QString::number(int)` and `QString::arg(int)`: the decimal text of an integer. -/
def QString.number (n : Int) : String := toString n

/-- `QString::chop(n)`: removes `n` characters from the end of the string; the result is
empty when `n` is at least the size. -/
def QString.chop (s : String) (n : Nat) : String := ⟨s.data.take (s.data.length - n)⟩

/-! ## Data model -/

/-- Modelled from the spec: the `GcodeSyntax` enumeration is declared in a header that is
not among the sources. The enumerators named in `writer_base.cpp` are listed; `kOther`
stands for every remaining enumerator. -/
inductive GcodeSyntax where
  | kBeam
  | kCincinnati
  | kHaasInch
  | kIngersoll
  | kMeld
  | kMeltio
  | kORNL
  | kSheetLamination
  | kSiemens
  | kSkyBaam
  | kOther (tag : Nat)
  deriving DecidableEq, Repr

/-- The string constants `Constants::PrinterSettings::SyntaxString::kIngersoll` (the name
of the bracketed-header dialect) and `kMeltio` (the name of the percent-prefixed dialect).
They are defined outside the sources, so their values are parameters. -/
structure Constants.PrinterSettings.SyntaxString where
  kIngersoll : String
  kMeltio : String
  deriving DecidableEq, Repr

/-- Modelled from the spec: the part of `GcodeMeta` (the dialect descriptor) that
`writer_base.cpp` reads, the comment delimiters. -/
structure GcodeMeta where
  m_comment_starting_delimiter : String
  m_comment_ending_delimiter : String
  deriving DecidableEq, Repr

/-- A value of the settings JSON document, carried as the compact text that `dump()`
returns for it. -/
structure JsonValue where
  dump : String
  deriving DecidableEq, Repr

/-- Modelled from the spec: the settings snapshot `SettingsBase`. One field per key read
through `setting<T>(key)` in `writer_base.cpp`, named after the key constant, and
`json`: the items of `json().items()` in iteration order. -/
structure SettingsBase where
  /-- The key `ExperimentalSettings::MultiNozzle::kNozzleCount`. -/
  kNozzleCount : Int
  /-- The key `ProfileSettings::Layer::kNozzleDiameter`. -/
  kNozzleDiameter : Distance
  /-- The key `PrinterSettings::MachineSetup::kMachineType`. -/
  kMachineType : Int
  /-- The key `MaterialSettings::Filament::kDiameter`. -/
  Filament_kDiameter : Distance
  /-- The key `PrinterSettings::Dimensions::kZOffset`. -/
  kZOffset : Distance
  /-- The key `PrinterSettings::Dimensions::kEnableW`. -/
  kEnableW : Int
  /-- The key `PrinterSettings::Dimensions::kWMin`. -/
  kWMin : Distance
  /-- The key `ProfileSettings::Layer::kLayerHeight`. -/
  kLayerHeight : Distance
  /-- The key `ProfileSettings::Layer::kBeadWidth`. -/
  kBeadWidth : Distance
  /-- The key `ProfileSettings::SpecialModes::kEnableSpiralize`. -/
  kEnableSpiralize : Int
  /-- The key `ProfileSettings::SpecialModes::kSmoothing`. -/
  kSmoothing : Int
  /-- The key `ProfileSettings::SpecialModes::kEnableOversize`. -/
  kEnableOversize : Int
  /-- The key `ProfileSettings::SpecialModes::kOversizeDistance`. -/
  kOversizeDistance : Distance
  /-- The key `ProfileSettings::Perimeter::kEnable`. -/
  Perimeter_kEnable : Int
  /-- The key `ProfileSettings::Perimeter::kCount`. -/
  Perimeter_kCount : Int
  /-- The key `ProfileSettings::Inset::kEnable`. -/
  Inset_kEnable : Int
  /-- The key `ProfileSettings::Inset::kCount`. -/
  Inset_kCount : Int
  /-- The key `ProfileSettings::Skin::kEnable`. -/
  Skin_kEnable : Int
  /-- The key `ProfileSettings::Skin::kTopCount`. -/
  Skin_kTopCount : Int
  /-- The key `ProfileSettings::Skin::kBottomCount`. -/
  Skin_kBottomCount : Int
  /-- The key `ProfileSettings::Skin::kPattern`. -/
  Skin_kPattern : Int
  /-- The key `ProfileSettings::Infill::kEnable`. -/
  Infill_kEnable : Int
  /-- The key `ProfileSettings::Infill::kManualLineSpacing`. -/
  Infill_kManualLineSpacing : Int
  /-- The key `ProfileSettings::Infill::kLineSpacing`. -/
  Infill_kLineSpacing : Distance
  /-- The key `ProfileSettings::Infill::kDensity`, read as a double. -/
  Infill_kDensity : Rat
  /-- The key `ProfileSettings::Infill::kPattern`. -/
  Infill_kPattern : Int
  /-- The key `MaterialSettings::Cooling::kForceMinLayerTime`. -/
  kForceMinLayerTime : Int
  /-- The key `MaterialSettings::Cooling::kMinLayerTime`. -/
  kMinLayerTime : Time
  /-- The key `MaterialSettings::Cooling::kMaxLayerTime`. -/
  kMaxLayerTime : Time
  /-- The key `ExperimentalSettings::SlicingAngle::kStackingDirectionYaw`. -/
  kStackingDirectionYaw : Angle
  /-- The key `ExperimentalSettings::SlicingAngle::kStackingDirectionPitch`. -/
  kStackingDirectionPitch : Angle
  /-- The key `ExperimentalSettings::SlicingAngle::kStackingDirectionRoll`. -/
  kStackingDirectionRoll : Angle
  /-- The items of `json().items()`: key and value, in iteration order. -/
  json : List (String × JsonValue)
  deriving DecidableEq

/-- Modelled from the spec: the process-wide settings store reached through
`SettingsManager::getInstance()->getGlobal()`. The one value `writer_base.cpp` reads from
it is the boolean setting `"useSmoothing"`. -/
structure SettingsManager where
  useSmoothing : Bool
  deriving DecidableEq, Repr

/-- A point of the build volume, `Point(x, y, z)`. -/
structure Point where
  x : Rat
  y : Rat
  z : Rat
  deriving DecidableEq

/-- The members of `WriterBase`. `m_newline` and `m_space` hold one character each and
are carried as one-character strings. -/
structure WriterBase where
  m_sb : SettingsBase
  m_meta : GcodeMeta
  m_newline : String
  m_empty_step_comment : String
  m_space : String
  m_x : String
  m_y : String
  m_z : String
  m_w : String
  m_e : String
  m_f : String
  m_s : String
  m_p : String
  m_i : String
  m_j : String
  m_k : String
  m_r : String
  m_l : String
  m_q : String
  m_a : String
  m_b : String
  m_G0 : String
  m_G1 : String
  m_G2 : String
  m_G3 : String
  m_G4 : String
  m_G5 : String
  m_M3 : String
  m_M5 : String
  m_start_point : Point
  m_extruders_on : List Bool
  m_feedrate : Velocity
  deriving DecidableEq

/-! ## `writer_base.cpp` -/

/-- `WriterBase::WriterBase(meta, sb)`, lines 10-45. The constructor does not assign
`m_feedrate`; `feedrate0` is the value its default construction leaves there.
`QVector::resize(n)` on the empty vector gives `n` default (`false`) entries; a negative
`n` is outside its contract and gives the empty vector here. -/
def WriterBase.new (meta : GcodeMeta) (sb : SettingsBase) (feedrate0 : Velocity) :
    WriterBase :=
  let num_extruders : Int := sb.kNozzleCount
  { m_sb := sb
    m_meta := meta
    m_newline := "\n"
    m_empty_step_comment := "INTENTIONALLY BLANK - NO PATHING PRODUCED USING CURRENT SETTINGS"
    m_space := " "
    m_x := " X"
    m_y := " Y"
    m_z := " Z"
    m_w := " W"
    m_e := " E"
    m_f := " F"
    m_s := " S"
    m_p := " P"
    m_i := " I"
    m_j := " J"
    m_k := " K"
    m_r := " R"
    m_l := " L"
    m_q := " Q"
    m_a := " A"
    m_b := " B"
    m_G0 := "G0"
    m_G1 := "G1"
    m_G2 := "G2"
    m_G3 := "G3"
    m_G4 := "G4"
    m_G5 := "G5"
    m_M3 := "M3"
    m_M5 := "M5"
    m_start_point := ⟨0, 0, 0⟩
    m_extruders_on := List.replicate num_extruders.toNat false
    m_feedrate := feedrate0 }

/-- `WriterBase::comment`, lines 47-50. -/
def WriterBase.comment (w : WriterBase) (text : String) : String :=
  w.m_meta.m_comment_starting_delimiter ++ text ++ w.m_meta.m_comment_ending_delimiter

/-- `WriterBase::commentLine`, lines 52-55. -/
def WriterBase.commentLine (w : WriterBase) (text : String) : String :=
  w.m_meta.m_comment_starting_delimiter ++ text ++ w.m_meta.m_comment_ending_delimiter ++
    w.m_newline

/-- `WriterBase::commentSpaceLine`, lines 57-60. -/
def WriterBase.commentSpaceLine (w : WriterBase) (text : String) : String :=
  w.m_space ++ w.m_meta.m_comment_starting_delimiter ++ text ++
    w.m_meta.m_comment_ending_delimiter ++ w.m_newline

/-- `WriterBase::writeSlicerHeader`, lines 84-104. Loading the version metadata
(lines 87-91) is an external collaborator; `master_version` is the value it yields, which
the function binds to `version` and does not use. `year` is
`QDate::currentDate().year()`; `names` holds the two syntax-name constants. -/
def WriterBase.writeSlicerHeader (w : WriterBase)
    (names : Constants.PrinterSettings.SyntaxString) (master_version : Rat) (year : Int)
    (syn : String) : String := Id.run do
  let mut rv := ""
  let _version : Rat := master_version
  if syn = names.kIngersoll then
    rv := rv ++ w.commentLine "---BEGIN HEADER"
  else if syn = names.kMeltio then
    rv := rv ++ "%\n"
  rv := rv ++ (w.commentLine "Nedcam shaping technology" ++
    w.commentLine ("Copyright " ++ QString.number year ++ "") ++
    w.commentLine ("G-Code Syntax: " ++ syn) ++
    w.m_newline)
  return rv

/-- `WriterBase::writeSettingsHeader`, lines 106-291. `QString("..%0..").arg(v)` is the
text with the rendering of `v` in place of `%0` (and of the second argument in place of
`%1`). -/
def WriterBase.writeSettingsHeader (w : WriterBase) (fp : DoubleOps) (sm : SettingsManager)
    (syn : GcodeSyntax) : String := Id.run do
  let mut text := ""
  text := text ++ w.commentLine "Slicing Parameters"
  if syn ≠ .kCincinnati ∧ syn ≠ .kHaasInch ∧ syn ≠ .kMeld ∧
      syn ≠ .kORNL ∧ syn ≠ .kSheetLamination ∧ syn ≠ .kSiemens ∧
      syn ≠ .kSkyBaam then
    text := text ++ w.commentLine
      ("Nozzle Diameter: " ++ fp.arg (fp.to_mm w.m_sb.kNozzleDiameter) ++ "mm")
  else
    text := text ++ w.commentLine
      ("Nozzle Diameter: " ++ fp.arg (fp.to_mm w.m_sb.kNozzleDiameter) ++ "mm")
  if w.m_sb.kMachineType = 1 then
    text := text ++ w.commentLine
      ("Filament Diameter: " ++ fp.arg (fp.to_mm w.m_sb.Filament_kDiameter) ++ "mm")
  if syn ≠ .kCincinnati ∧ syn ≠ .kHaasInch ∧ syn ≠ .kMeld ∧
      syn ≠ .kORNL ∧ syn ≠ .kSheetLamination ∧ syn ≠ .kSiemens ∧
      syn ≠ .kSkyBaam then
    text := text ++ w.commentLine
      ("Printer Base Offset: " ++ fp.arg (fp.to_mm w.m_sb.kZOffset) ++ "mm")
  else
    text := text ++ w.commentLine
      ("Printer Base Offset: " ++ fp.arg (fp.to_mm w.m_sb.kZOffset) ++ "mm")
  if w.m_sb.kEnableW ≠ 0 then
    text := text ++ w.commentLine
      ("Minimum Table Value: " ++ fp.arg (fp.to_mm w.m_sb.kWMin) ++ "mm")
  if syn ≠ .kCincinnati ∧ syn ≠ .kHaasInch ∧ syn ≠ .kMeld ∧
      syn ≠ .kORNL ∧ syn ≠ .kSheetLamination ∧ syn ≠ .kSiemens ∧
      syn ≠ .kSkyBaam then
    text := text ++ w.commentLine
      ("Layer Height: " ++ fp.arg (fp.to_mm w.m_sb.kLayerHeight) ++ "mm")
    text := text ++ w.commentLine
      ("Default Extrusion Width: " ++ fp.arg (fp.to_mm w.m_sb.kBeadWidth) ++ "mm")
  else
    text := text ++ w.commentLine
      ("Layer Height: " ++ fp.arg (fp.to_mm w.m_sb.kLayerHeight) ++ "mm")
    text := text ++ w.commentLine
      ("Default Extrusion Width: " ++ fp.arg (fp.to_mm w.m_sb.kBeadWidth) ++ "mm")

  if w.m_sb.kEnableSpiralize ≠ 0 then
    text := text ++ w.commentLine "Spiralize is turned ON"
    if w.m_sb.kSmoothing ≠ 0 then
      text := text ++ w.commentLine "Smoothing is turned ON"
    if w.m_sb.kEnableOversize ≠ 0 then
      text := text ++ w.commentLine
        ("Oversize part by: " ++ fp.arg (fp.to_mm w.m_sb.kOversizeDistance) ++ "mm")
    text := text ++ w.m_newline
    return text
  else
    if w.m_sb.Perimeter_kEnable ≠ 0 then
      text := text ++ w.commentLine
        ("Perimeter Count: " ++ QString.number w.m_sb.Perimeter_kCount)
    if w.m_sb.Inset_kEnable ≠ 0 then
      text := text ++ w.commentLine
        ("Inset Count: " ++ QString.number w.m_sb.Inset_kCount)
    if w.m_sb.Skin_kEnable ≠ 0 then
      text := text ++ w.commentLine
        ("Upskin Count: " ++ QString.number w.m_sb.Skin_kTopCount)
    if w.m_sb.Skin_kEnable ≠ 0 then
      text := text ++ w.commentLine
        ("Downskin Count: " ++ QString.number w.m_sb.Skin_kBottomCount)
    if w.m_sb.Skin_kEnable ≠ 0 ∧
        (w.m_sb.Skin_kTopCount > 0 ∨ w.m_sb.Skin_kBottomCount > 0) then
      let skinPattern : Int := w.m_sb.Skin_kPattern
      if skinPattern ≠ 0 then
        text := text ++ w.commentLine "Skin Pattern: Lines"
      else
        text := text ++ w.commentLine "Skin Patern: Concentric"
    if w.m_sb.Infill_kEnable ≠ 0 then
      if w.m_sb.Infill_kManualLineSpacing ≠ 0 then
        text := text ++ w.commentLine
          ("Infill Percentage: " ++
            fp.arg (fp.mul
              (fp.div (fp.to_mm w.m_sb.kBeadWidth) (fp.to_mm w.m_sb.Infill_kLineSpacing)) 100) ++
            "%")
      else
        text := text ++ w.commentLine
          ("Infill Percentage: " ++ fp.arg w.m_sb.Infill_kDensity ++ "%")

      let infill_pattern : Int := w.m_sb.Infill_kPattern
      match infill_pattern with
      | 0 => text := text ++ w.commentLine "Infill Pattern: Lines"
      | 1 => text := text ++ w.commentLine "Infill Pattern: Grid"
      | 2 => text := text ++ w.commentLine "Infill Pattern: Concentric"
      | 3 => text := text ++ w.commentLine "Infill Pattern: Inside Out Concentric"
      | 4 => text := text ++ w.commentLine "Infill Pattern: Triangles"
      | 5 => text := text ++ w.commentLine "Infill Pattern: Hexagons and Triangles"
      | 6 => text := text ++ w.commentLine "Infill Pattern: Honeycomb"
      | 7 => text := text ++ w.commentLine "Infill Pattern: Radial Hatch"
      | _ => text := text ++ w.commentLine "Infill Pattern: Lines"
    if w.m_sb.kForceMinLayerTime ≠ 0 then
      text := text ++ w.commentLine
        ("Forced Minimum / Maximum Layer Time: " ++ fp.arg (fp.time w.m_sb.kMinLayerTime) ++
          " " ++ fp.arg (fp.time w.m_sb.kMaxLayerTime) ++ " seconds")
    if sm.useSmoothing then
      text := text ++ w.commentLine "Smoothing is turned ON"
    if w.m_sb.kStackingDirectionYaw ≠ 0 ∨ w.m_sb.kStackingDirectionPitch ≠ 0 ∨
        w.m_sb.kStackingDirectionRoll ≠ 0 then
      text := text ++ w.commentLine "ANGLED SLICING ENABLED"
    if w.m_sb.kEnableOversize ≠ 0 then
      text := text ++ w.commentLine
        ("Oversize part by: " ++ fp.arg (fp.to_mm w.m_sb.kOversizeDistance) ++ "mm")
  if syn = .kIngersoll then
    text := text ++ w.commentLine "---END HEADER"

  text := text ++ w.m_newline
  return text

/-- `WriterBase::writeLayerChange`, lines 293-296. `layer_number` is a `uint`, so
`layer_number + 1` is taken modulo `2^32`. -/
def WriterBase.writeLayerChange (w : WriterBase) (layer_number : Nat) : String :=
  w.commentLine
    ("BEGINNING LAYER: " ++ QString.number (((layer_number + 1) % 2 ^ 32 : Nat) : Int))

/-- `WriterBase::writeSettingsFooter`, lines 298-309. -/
def WriterBase.writeSettingsFooter (w : WriterBase) : String := Id.run do
  let mut rv := ""
  rv := rv ++ (w.m_newline ++ w.commentLine "Settings Footer")
  for el in w.m_sb.json do
    rv := rv ++ w.commentLine (el.1 ++ w.m_space ++ el.2.dump)
  rv := QString.chop rv 1
  return rv

/-- `WriterBase::writeEmptyStep`, lines 311-314. -/
def WriterBase.writeEmptyStep (w : WriterBase) : String :=
  w.commentLine w.m_empty_step_comment

/-- `WriterBase::writeCommentLine`, lines 316-319. -/
def WriterBase.writeCommentLine (w : WriterBase) (comment : String) : String :=
  "\n" ++ w.commentLine comment

/-- `WriterBase::setFeedrate`, lines 321-324. -/
def WriterBase.setFeedrate (w : WriterBase) (feedrate : Velocity) : WriterBase :=
  { w with m_feedrate := feedrate }

/-- `WriterBase::getFeedrate`, lines 326-329. -/
def WriterBase.getFeedrate (w : WriterBase) : Velocity :=
  w.m_feedrate

/-- One call of a `WriterBase` member function of `writer_base.cpp`, with its
arguments. -/
inductive WriterCall where
  | comment (text : String)
  | commentLine (text : String)
  | commentSpaceLine (text : String)
  | writeSlicerHeader (syn : String)
  | writeSettingsHeader (syn : GcodeSyntax)
  | writeLayerChange (layer_number : Nat)
  | writeSettingsFooter
  | writeEmptyStep
  | writeCommentLine (comment : String)
  | setFeedrate (feedrate : Velocity)
  | getFeedrate

/-- What a call of a `WriterBase` member function returns. -/
inductive WriterReturn where
  | text (s : String)
  | velocity (v : Velocity)
  | void
  deriving DecidableEq

/-- What the writer reads from outside its own members during a call: the floating-point
layer, the process-wide settings store, the syntax-name constants, the version metadata and
the current year. -/
structure WriterEnv where
  fp : DoubleOps
  sm : SettingsManager
  names : Constants.PrinterSettings.SyntaxString
  master_version : Rat
  year : Int

/-- The writer after a call, and what the call returned. The member functions that return
text assign no member, so the writer they leave is the one they were called on;
`setFeedrate` assigns `m_feedrate`. -/
def WriterBase.call (w : WriterBase) (env : WriterEnv) : WriterCall → WriterBase × WriterReturn
  | .comment text => (w, .text (w.comment text))
  | .commentLine text => (w, .text (w.commentLine text))
  | .commentSpaceLine text => (w, .text (w.commentSpaceLine text))
  | .writeSlicerHeader syn =>
    (w, .text (w.writeSlicerHeader env.names env.master_version env.year syn))
  | .writeSettingsHeader syn => (w, .text (w.writeSettingsHeader env.fp env.sm syn))
  | .writeLayerChange layer_number => (w, .text (w.writeLayerChange layer_number))
  | .writeSettingsFooter => (w, .text w.writeSettingsFooter)
  | .writeEmptyStep => (w, .text w.writeEmptyStep)
  | .writeCommentLine comment => (w, .text (w.writeCommentLine comment))
  | .setFeedrate feedrate => (w.setFeedrate feedrate, .void)
  | .getFeedrate => (w, .velocity w.getFeedrate)

/-- The writer after a sequence of calls. -/
def WriterBase.run (w : WriterBase) (env : WriterEnv) : List WriterCall → WriterBase
  | [] => w
  | c :: cs => WriterBase.run (w.call env c).1 env cs

/-! ## Views of the settings header -/

/-- The text lines 111-179 of `writeSettingsHeader` append: both sides of the family
condition append the same lines, so the text does not depend on the syntax. -/
def WriterBase.headerGeometry (w : WriterBase) (fp : DoubleOps) : String :=
  w.commentLine "Slicing Parameters" ++
  w.commentLine ("Nozzle Diameter: " ++ fp.arg (fp.to_mm w.m_sb.kNozzleDiameter) ++ "mm") ++
  (if w.m_sb.kMachineType = 1 then
    w.commentLine ("Filament Diameter: " ++ fp.arg (fp.to_mm w.m_sb.Filament_kDiameter) ++ "mm")
   else "") ++
  w.commentLine ("Printer Base Offset: " ++ fp.arg (fp.to_mm w.m_sb.kZOffset) ++ "mm") ++
  (if w.m_sb.kEnableW ≠ 0 then
    w.commentLine ("Minimum Table Value: " ++ fp.arg (fp.to_mm w.m_sb.kWMin) ++ "mm")
   else "") ++
  w.commentLine ("Layer Height: " ++ fp.arg (fp.to_mm w.m_sb.kLayerHeight) ++ "mm") ++
  w.commentLine ("Default Extrusion Width: " ++ fp.arg (fp.to_mm w.m_sb.kBeadWidth) ++ "mm")

/-- The pattern name the `switch` of lines 234-263 selects for an infill pattern index. -/
def infillPatternText (infill_pattern : Int) : String :=
  match infill_pattern with
  | 0 => "Infill Pattern: Lines"
  | 1 => "Infill Pattern: Grid"
  | 2 => "Infill Pattern: Concentric"
  | 3 => "Infill Pattern: Inside Out Concentric"
  | 4 => "Infill Pattern: Triangles"
  | 5 => "Infill Pattern: Hexagons and Triangles"
  | 6 => "Infill Pattern: Honeycomb"
  | 7 => "Infill Pattern: Radial Hatch"
  | _ => "Infill Pattern: Lines"

/-- The line the `switch` of lines 234-263 appends for an infill pattern index. -/
def WriterBase.infillPatternLine (w : WriterBase) (infill_pattern : Int) : String :=
  w.commentLine (infillPatternText infill_pattern)

/-- The text lines 183-191 append when spiralize is enabled. -/
def WriterBase.headerSpiralize (w : WriterBase) (fp : DoubleOps) : String :=
  w.commentLine "Spiralize is turned ON" ++
  (if w.m_sb.kSmoothing ≠ 0 then w.commentLine "Smoothing is turned ON" else "") ++
  (if w.m_sb.kEnableOversize ≠ 0 then
    w.commentLine ("Oversize part by: " ++ fp.arg (fp.to_mm w.m_sb.kOversizeDistance) ++ "mm")
   else "")

/-- The text lines 196-284 append when spiralize is disabled. -/
def WriterBase.headerDetail (w : WriterBase) (fp : DoubleOps) (sm : SettingsManager) :
    String :=
  (if w.m_sb.Perimeter_kEnable ≠ 0 then
    w.commentLine ("Perimeter Count: " ++ QString.number w.m_sb.Perimeter_kCount) else "") ++
  (if w.m_sb.Inset_kEnable ≠ 0 then
    w.commentLine ("Inset Count: " ++ QString.number w.m_sb.Inset_kCount) else "") ++
  (if w.m_sb.Skin_kEnable ≠ 0 then
    w.commentLine ("Upskin Count: " ++ QString.number w.m_sb.Skin_kTopCount) else "") ++
  (if w.m_sb.Skin_kEnable ≠ 0 then
    w.commentLine ("Downskin Count: " ++ QString.number w.m_sb.Skin_kBottomCount) else "") ++
  (if w.m_sb.Skin_kEnable ≠ 0 ∧ (w.m_sb.Skin_kTopCount > 0 ∨ w.m_sb.Skin_kBottomCount > 0) then
    (if w.m_sb.Skin_kPattern ≠ 0 then w.commentLine "Skin Pattern: Lines"
     else w.commentLine "Skin Patern: Concentric")
   else "") ++
  (if w.m_sb.Infill_kEnable ≠ 0 then
    (if w.m_sb.Infill_kManualLineSpacing ≠ 0 then
      w.commentLine ("Infill Percentage: " ++
        fp.arg (fp.mul
          (fp.div (fp.to_mm w.m_sb.kBeadWidth) (fp.to_mm w.m_sb.Infill_kLineSpacing)) 100) ++
        "%")
     else w.commentLine ("Infill Percentage: " ++ fp.arg w.m_sb.Infill_kDensity ++ "%")) ++
    w.infillPatternLine w.m_sb.Infill_kPattern
   else "") ++
  (if w.m_sb.kForceMinLayerTime ≠ 0 then
    w.commentLine ("Forced Minimum / Maximum Layer Time: " ++
      fp.arg (fp.time w.m_sb.kMinLayerTime) ++ " " ++ fp.arg (fp.time w.m_sb.kMaxLayerTime) ++
      " seconds")
   else "") ++
  (if sm.useSmoothing = true then w.commentLine "Smoothing is turned ON" else "") ++
  (if w.m_sb.kStackingDirectionYaw ≠ 0 ∨ w.m_sb.kStackingDirectionPitch ≠ 0 ∨
      w.m_sb.kStackingDirectionRoll ≠ 0 then
    w.commentLine "ANGLED SLICING ENABLED" else "") ++
  (if w.m_sb.kEnableOversize ≠ 0 then
    w.commentLine ("Oversize part by: " ++ fp.arg (fp.to_mm w.m_sb.kOversizeDistance) ++ "mm")
   else "")


/-! ## Lines of a text -/

/-- The lines of a text: the pieces between its newline characters. The last line is what
follows the last newline (empty when the text ends in a newline). -/
def splitLines : List Char → List (List Char)
  | [] => [[]]
  | c :: cs =>
    if c = '\n' then [] :: splitLines cs
    else
      match splitLines cs with
      | [] => [[c]]
      | l :: ls => (c :: l) :: ls

/-- The lines of a string. -/
def linesOf (s : String) : List String := (splitLines s.data).map String.mk

/-- A string without a newline character. -/
def NoNL (s : String) : Prop := '\n' ∉ s.data

instance (s : String) : Decidable (NoNL s) := by unfold NoNL; infer_instance

/-- Whether `line` is a comment of the dialect `m` whose text begins with `head`. -/
def GcodeMeta.isCommentWith (m : GcodeMeta) (head : String) (line : String) : Bool :=
  decide ((m.m_comment_starting_delimiter ++ head).data <+: line.data)

/-! ## `siemens_parser.cpp` -/

/-- Modelled from the spec: the canonical command under assembly, `GcodeCommand`: its
mnemonic, its parameters, its trailing comment and its line number. The class is declared
in a header that is not among the sources; `getComment` and `setComment` read and assign
the comment. -/
structure GcodeCommand where
  m_command : String
  m_parameters : List (Char × Rat)
  m_comment : String
  m_line_number : Nat
  deriving DecidableEq

/-- `GcodeCommand::getComment`. -/
def GcodeCommand.getComment (c : GcodeCommand) : String := c.m_comment

/-- `GcodeCommand::setComment`. -/
def GcodeCommand.setComment (c : GcodeCommand) (comment : String) : GcodeCommand :=
  { c with m_comment := comment }

/-- Modelled from the spec: the members of `CommonParser` that make up the parser state:
the extruder-on vector, the position, the command under assembly, the accumulated comment
and the last feedrate. -/
structure ParserState where
  m_extruders_on : List Bool
  m_position : Point
  m_current_gcode_command : GcodeCommand
  m_comment : String
  m_feedrate : Velocity
  deriving DecidableEq

/-- An exception thrown by a handler (`exceptions/exceptions.h`), carried as its text. -/
structure ParseException where
  what : String
  deriving DecidableEq

/-- A command handler `void Handler(QVector<QStringRef> params)` of a parser: from the
parameters and the parser state to the state it leaves, together with the exception it
threw, if any. An exception does not undo the assignments made before it. -/
abbrev Handler := List String → ParserState → Except ParseException Unit × ParserState

/-- Modelled from the spec: the command registry of `CommonParser`, from mnemonic to
handler, with at most one handler per mnemonic. -/
abbrev CommandMapping := List (String × Handler)

/-- Modelled from the spec: `CommonParser::addCommandMapping`, which adds the handler for
a mnemonic or replaces the one bound to it. -/
def addCommandMapping (m : CommandMapping) (command_string : String)
    (function_handle : Handler) : CommandMapping :=
  (command_string, function_handle) :: m.filter (fun e => e.1 ≠ command_string)

/-- Modelled from the spec: the handler bound to a mnemonic, if any. -/
def CommandMapping.resolve (m : CommandMapping) (command_string : String) : Option Handler :=
  (m.find? (fun e => e.1 = command_string)).map (fun e => e.2)

/-- The base class `CommonParser`, which is not among the sources: its canonical handlers
`M3Handler`, `M5Handler` and `G1Handler`, and the registry `CommonParser::config` builds.
Nothing is assumed about them. -/
structure CommonParser where
  M3Handler : Handler
  M5Handler : Handler
  G1Handler : Handler
  config : CommandMapping

/-- `SiemensParser::BeadAreaHandler`, lines 32-36. -/
def SiemensParser.BeadAreaHandler (base : CommonParser) : Handler :=
  fun params s => base.M3Handler params s

/-- `SiemensParser::ExtruderOffHandler`, lines 38-42. -/
def SiemensParser.ExtruderOffHandler (base : CommonParser) : Handler :=
  fun params s => base.M5Handler params s

/-- `SiemensParser::G1Handler`, lines 43-50. When the canonical handler throws, the
exception leaves `G1Handler` as well and lines 48-49 are not run. -/
def SiemensParser.G1Handler (base : CommonParser) : Handler :=
  fun params s =>
    match base.G1Handler params s with
    | (.error e, s) => (.error e, s)
    | (.ok (), s) =>
      let currentComment := s.m_current_gcode_command.getComment
      let s := { s with
        m_current_gcode_command := s.m_current_gcode_command.setComment (currentComment ++ "1") }
      (.ok (), s)

/-- `SiemensParser::config`, lines 18-30. -/
def SiemensParser.config (base : CommonParser) : CommandMapping :=
  let m := base.config
  let m := addCommandMapping m "BEAD_AREA" (SiemensParser.BeadAreaHandler base)
  let m := addCommandMapping m "WHEN TRUE DO EXTR_END=2.0" (SiemensParser.ExtruderOffHandler base)
  m

/-! ## Statement-side definitions and concrete inputs -/

/-- The dialect family list of the settings header: Cincinnati, HaasInch, Meld, ORNL,
SheetLamination, Siemens, SkyBaam. -/
def GcodeSyntax.inFamilyList (syn : GcodeSyntax) : Bool :=
  syn = .kCincinnati ∨ syn = .kHaasInch ∨ syn = .kMeld ∨ syn = .kORNL ∨
    syn = .kSheetLamination ∨ syn = .kSiemens ∨ syn = .kSkyBaam

/-- The headings of the lines that lines 196-278 of `writeSettingsHeader` write: perimeter,
inset, skin, infill, forced layer time and angled slicing. -/
def detailHeadings : List String :=
  ["Perimeter Count: ", "Inset Count: ", "Upskin Count: ", "Downskin Count: ",
    "Skin Pattern: ", "Skin Patern: ", "Infill Percentage: ", "Infill Pattern: ",
    "Forced Minimum / Maximum Layer Time: ", "ANGLED SLICING ENABLED"]

/-- A dialect descriptor with the comment delimiters "(" and ")". -/
def parenMeta : GcodeMeta := ⟨"(", ")"⟩

/-- A floating-point layer for concrete inputs: it renders the value zero as "0", as
`QString::arg(double)` does, and is the identity on units. -/
def zeroDoubleOps : DoubleOps :=
  { to_mm := fun d => d
    time := fun t => t
    div := fun a b => a / b
    mul := fun a b => a * b
    arg := fun r => if r = 0 then "0" else "1" }

/-- A concrete settings snapshot: one nozzle, every length, angle and time zero, every
switch off, and two profile keys in the settings document. -/
def plainSettings : SettingsBase :=
  { kNozzleCount := 1
    kNozzleDiameter := 0
    kMachineType := 0
    Filament_kDiameter := 0
    kZOffset := 0
    kEnableW := 0
    kWMin := 0
    kLayerHeight := 0
    kBeadWidth := 0
    kEnableSpiralize := 0
    kSmoothing := 0
    kEnableOversize := 0
    kOversizeDistance := 0
    Perimeter_kEnable := 0
    Perimeter_kCount := 0
    Inset_kEnable := 0
    Inset_kCount := 0
    Skin_kEnable := 0
    Skin_kTopCount := 0
    Skin_kBottomCount := 0
    Skin_kPattern := 0
    Infill_kEnable := 0
    Infill_kManualLineSpacing := 0
    Infill_kLineSpacing := 0
    Infill_kDensity := 0
    Infill_kPattern := 0
    kForceMinLayerTime := 0
    kMinLayerTime := 0
    kMaxLayerTime := 0
    kStackingDirectionYaw := 0
    kStackingDirectionPitch := 0
    kStackingDirectionRoll := 0
    json := [("layer_height", ⟨"0.0"⟩), ("spiralize", ⟨"false"⟩)] }

/-- Syntax names for concrete inputs. -/
def dialectNames : Constants.PrinterSettings.SyntaxString := ⟨"Ingersoll", "Meltio"⟩

/-- The snapshot `plainSettings` with the W axis, three perimeters, skins (two on top, none
below, concentric), infill (density zero, honeycomb) and a slicing yaw switched on. -/
def detailedSettings : SettingsBase :=
  { plainSettings with
    kEnableW := 1
    Perimeter_kEnable := 1
    Perimeter_kCount := 3
    Skin_kEnable := 1
    Skin_kTopCount := 2
    Infill_kEnable := 1
    Infill_kPattern := 6
    kStackingDirectionYaw := 1 }

/-- The snapshot `plainSettings` with spiralize mode enabled. -/
def spiralSettings : SettingsBase := { plainSettings with kEnableSpiralize := 1 }

/-! ## Lemmas on the text-building steps -/

theorem ite_append_cont {α : Type} (c : Prop) [Decidable c] (K : String → PUnit → α)
    (t x : String) :
    (if c then (let text := t ++ x; K text PUnit.unit) else K t PUnit.unit)
      = K (t ++ (if c then x else "")) PUnit.unit := by
  split <;> simp

theorem ite_append_append_cont {α : Type} (c : Prop) [Decidable c] (K : String → PUnit → α)
    (t x y : String) :
    (if c then (let text := t ++ x; K text PUnit.unit)
      else (let text := t ++ y; K text PUnit.unit))
      = K (t ++ (if c then x else y)) PUnit.unit := by
  split <;> simp

theorem switch_append_cont {α : Type} (w : WriterBase) (K : String → PUnit → α) (t : String)
    (p : Int) :
    (match p with
      | 0 => let text := t ++ w.commentLine "Infill Pattern: Lines"; K text PUnit.unit
      | 1 => let text := t ++ w.commentLine "Infill Pattern: Grid"; K text PUnit.unit
      | 2 => let text := t ++ w.commentLine "Infill Pattern: Concentric"; K text PUnit.unit
      | 3 => let text := t ++ w.commentLine "Infill Pattern: Inside Out Concentric";
             K text PUnit.unit
      | 4 => let text := t ++ w.commentLine "Infill Pattern: Triangles"; K text PUnit.unit
      | 5 => let text := t ++ w.commentLine "Infill Pattern: Hexagons and Triangles";
             K text PUnit.unit
      | 6 => let text := t ++ w.commentLine "Infill Pattern: Honeycomb"; K text PUnit.unit
      | 7 => let text := t ++ w.commentLine "Infill Pattern: Radial Hatch"; K text PUnit.unit
      | _ => let text := t ++ w.commentLine "Infill Pattern: Lines"; K text PUnit.unit)
      = K (t ++ w.infillPatternLine p) PUnit.unit := by
  unfold WriterBase.infillPatternLine infillPatternText
  split <;> rfl

/-- The settings header is the geometry block followed either by the spiralize block and a
newline, or by the detail block, the end marker for Ingersoll, and a newline. -/
theorem WriterBase.writeSettingsHeader_eq (w : WriterBase) (fp : DoubleOps)
    (sm : SettingsManager) (syn : GcodeSyntax) :
    w.writeSettingsHeader fp sm syn =
      w.headerGeometry fp ++
        (if w.m_sb.kEnableSpiralize ≠ 0 then w.headerSpiralize fp ++ w.m_newline
         else w.headerDetail fp sm ++
           (if syn = .kIngersoll then w.commentLine "---END HEADER" else "") ++ w.m_newline) := by
  unfold WriterBase.writeSettingsHeader
  simp -zeta only [Id.run, pure_bind, ite_self, ite_append_cont, ite_append_append_cont,
    switch_append_cont]
  simp only [pure, String.empty_append]
  simp only [WriterBase.headerGeometry, WriterBase.headerSpiralize, WriterBase.headerDetail]
  by_cases h1 : w.m_sb.kEnableSpiralize ≠ 0
  · simp only [if_pos h1, String.append_assoc]
  · by_cases h2 : w.m_sb.Infill_kEnable ≠ 0
    · simp only [if_neg h1, if_pos h2, String.append_assoc]
    · simp only [if_neg h1, if_neg h2, String.append_assoc, String.empty_append]

theorem WriterBase.new_m_newline (meta : GcodeMeta) (sb : SettingsBase) (f0 : Velocity) :
    (WriterBase.new meta sb f0).m_newline = "\n" := rfl

theorem WriterBase.new_m_space (meta : GcodeMeta) (sb : SettingsBase) (f0 : Velocity) :
    (WriterBase.new meta sb f0).m_space = " " := rfl

theorem WriterBase.new_m_meta (meta : GcodeMeta) (sb : SettingsBase) (f0 : Velocity) :
    (WriterBase.new meta sb f0).m_meta = meta := rfl

theorem WriterBase.new_m_sb (meta : GcodeMeta) (sb : SettingsBase) (f0 : Velocity) :
    (WriterBase.new meta sb f0).m_sb = sb := rfl

theorem WriterBase.call_m_extruders_on (w : WriterBase) (env : WriterEnv) (c : WriterCall) :
    (w.call env c).1.m_extruders_on = w.m_extruders_on := by
  cases c <;> rfl

theorem WriterBase.run_m_extruders_on (env : WriterEnv) (cs : List WriterCall) :
    ∀ w : WriterBase, (w.run env cs).m_extruders_on = w.m_extruders_on := by
  induction cs with
  | nil => intro w; rfl
  | cons c cs ih =>
    intro w
    show ((w.call env c).1.run env cs).m_extruders_on = w.m_extruders_on
    rw [ih, WriterBase.call_m_extruders_on]

/-! ## Lemmas on lines -/

theorem splitLines_append_newline (a rest : List Char) (h : '\n' ∉ a) :
    splitLines (a ++ '\n' :: rest) = a :: splitLines rest := by
  induction a with
  | nil => simp [splitLines]
  | cons c cs ih =>
    have hc : c ≠ '\n' := fun e => h (by simp [e])
    have hcs : '\n' ∉ cs := fun e => h (by simp [e])
    simp [splitLines, hc, ih hcs]

theorem splitLines_of_not_mem (a : List Char) (h : '\n' ∉ a) : splitLines a = [a] := by
  induction a with
  | nil => simp [splitLines]
  | cons c cs ih =>
    have hc : c ≠ '\n' := fun e => h (by simp [e])
    have hcs : '\n' ∉ cs := fun e => h (by simp [e])
    simp [splitLines, hc, ih hcs]

theorem linesOf_append_newline (a rest : String) (h : NoNL a) :
    linesOf (a ++ ("\n" ++ rest)) = a :: linesOf rest := by
  unfold linesOf
  have : (a ++ ("\n" ++ rest)).data = a.data ++ '\n' :: rest.data := by
    simp [String.data_append]
  rw [this, splitLines_append_newline _ _ h]
  simp

theorem linesOf_newline : linesOf "\n" = ["", ""] := by decide

theorem ite_ne_of_ne {c : Prop} [Decidable c] {a b x : Char} (ha : a ≠ x) (hb : b ≠ x) :
    (if c then a else b) ≠ x := by
  split <;> assumption

theorem digitChar_ne_newline (k : Nat) : Nat.digitChar k ≠ '\n' := by
  unfold Nat.digitChar
  repeat' apply ite_ne_of_ne
  all_goals decide

theorem toDigitsCore_no_newline (fuel : Nat) :
    ∀ (n : Nat) (acc : List Char), '\n' ∉ acc → '\n' ∉ Nat.toDigitsCore 10 fuel n acc := by
  induction fuel with
  | zero => intro n acc h; simpa [Nat.toDigitsCore] using h
  | succ f ih =>
    intro n acc h
    simp only [Nat.toDigitsCore]
    have hacc : '\n' ∉ Nat.digitChar (n % 10) :: acc := by
      simp only [List.mem_cons, not_or]
      exact ⟨fun e => digitChar_ne_newline _ e.symm, h⟩
    split
    · exact hacc
    · exact ih _ _ hacc

theorem NoNL_number (n : Int) : NoNL (QString.number n) := by
  unfold NoNL QString.number
  cases n with
  | ofNat m =>
    show '\n' ∉ (Nat.repr m).data
    simp only [Nat.repr, Nat.toDigits, List.asString]
    exact toDigitsCore_no_newline _ _ _ (by simp)
  | negSucc m =>
    show '\n' ∉ ("-" ++ Nat.repr (m + 1)).data
    simp only [String.data_append, List.mem_append, not_or, Nat.repr, Nat.toDigits,
      List.asString]
    exact ⟨by decide, toDigitsCore_no_newline _ _ _ (by simp)⟩


theorem NoNL_append (a b : String) : NoNL (a ++ b) ↔ NoNL a ∧ NoNL b := by
  simp [NoNL, String.data_append, not_or]

theorem NoNL_infillPatternText (p : Int) : NoNL (infillPatternText p) := by
  unfold infillPatternText
  split <;> decide

theorem linesOf_commentLine_append (meta : GcodeMeta) (sb : SettingsBase) (f0 : Velocity)
    (t rest : String)
    (h : NoNL meta.m_comment_starting_delimiter ∧ NoNL t ∧
      NoNL meta.m_comment_ending_delimiter) :
    linesOf ((WriterBase.new meta sb f0).commentLine t ++ rest) =
      (WriterBase.new meta sb f0).comment t :: linesOf rest := by
  have e : (WriterBase.new meta sb f0).commentLine t ++ rest =
      (WriterBase.new meta sb f0).comment t ++ ("\n" ++ rest) := by
    simp [WriterBase.commentLine, WriterBase.comment, WriterBase.new_m_newline,
      String.append_assoc]
  rw [e]
  apply linesOf_append_newline
  simp [WriterBase.comment, WriterBase.new_m_meta, NoNL_append, h.1, h.2.1, h.2.2]

theorem linesOf_optLine_append (meta : GcodeMeta) (sb : SettingsBase) (f0 : Velocity)
    (c : Prop) [Decidable c] (t rest : String)
    (h : NoNL meta.m_comment_starting_delimiter ∧ NoNL t ∧
      NoNL meta.m_comment_ending_delimiter) :
    linesOf ((if c then (WriterBase.new meta sb f0).commentLine t else "") ++ rest) =
      (if c then [(WriterBase.new meta sb f0).comment t] else []) ++ linesOf rest := by
  split
  · rw [linesOf_commentLine_append _ _ _ _ _ h]; rfl
  · rfl

theorem linesOf_optLine_append_not (meta : GcodeMeta) (sb : SettingsBase) (f0 : Velocity)
    (c : Prop) [Decidable c] (t rest : String)
    (h : NoNL meta.m_comment_starting_delimiter ∧ NoNL t ∧
      NoNL meta.m_comment_ending_delimiter) :
    linesOf ((if c then "" else (WriterBase.new meta sb f0).commentLine t) ++ rest) =
      (if c then [] else [(WriterBase.new meta sb f0).comment t]) ++ linesOf rest := by
  split
  · rfl
  · rw [linesOf_commentLine_append _ _ _ _ _ h]; rfl

theorem linesOf_optLines_append (meta : GcodeMeta) (sb : SettingsBase) (f0 : Velocity)
    (c : Prop) [Decidable c] (t u rest : String)
    (h : NoNL meta.m_comment_starting_delimiter ∧ NoNL t ∧ NoNL u ∧
      NoNL meta.m_comment_ending_delimiter) :
    linesOf ((if c then (WriterBase.new meta sb f0).commentLine t ++
        (WriterBase.new meta sb f0).commentLine u else "") ++ rest) =
      (if c then [(WriterBase.new meta sb f0).comment t, (WriterBase.new meta sb f0).comment u]
        else []) ++ linesOf rest := by
  split
  · rw [String.append_assoc, linesOf_commentLine_append _ _ _ _ _ ⟨h.1, h.2.1, h.2.2.2⟩,
      linesOf_commentLine_append _ _ _ _ _ ⟨h.1, h.2.2.1, h.2.2.2⟩]
    rfl
  · rfl

theorem linesOf_optLines_append_not (meta : GcodeMeta) (sb : SettingsBase) (f0 : Velocity)
    (c : Prop) [Decidable c] (t u rest : String)
    (h : NoNL meta.m_comment_starting_delimiter ∧ NoNL t ∧ NoNL u ∧
      NoNL meta.m_comment_ending_delimiter) :
    linesOf ((if c then "" else (WriterBase.new meta sb f0).commentLine t ++
        (WriterBase.new meta sb f0).commentLine u) ++ rest) =
      (if c then [] else
        [(WriterBase.new meta sb f0).comment t, (WriterBase.new meta sb f0).comment u]) ++
        linesOf rest := by
  split
  · rfl
  · rw [String.append_assoc, linesOf_commentLine_append _ _ _ _ _ ⟨h.1, h.2.1, h.2.2.2⟩,
      linesOf_commentLine_append _ _ _ _ _ ⟨h.1, h.2.2.1, h.2.2.2⟩]
    rfl

theorem filter_ite_nil {α : Type} (p : α → Bool) (c : Prop) [Decidable c] (x : List α) :
    List.filter p (if c then x else []) = if c then List.filter p x else [] := by
  split <;> rfl

theorem filter_nil_ite {α : Type} (p : α → Bool) (c : Prop) [Decidable c] (x : List α) :
    List.filter p (if c then [] else x) = if c then [] else List.filter p x := by
  split <;> rfl

theorem isCommentWith_comment (meta : GcodeMeta) (sb : SettingsBase) (f0 : Velocity)
    (head t : String) :
    meta.isCommentWith head ((WriterBase.new meta sb f0).comment t) =
      decide (head.data <+: t.data ++ meta.m_comment_ending_delimiter.data) := by
  simp [GcodeMeta.isCommentWith, WriterBase.comment, WriterBase.new_m_meta,
    List.prefix_append_right_inj]

theorem isCommentWith_empty (meta : GcodeMeta) (head : String) (h : head.data ≠ []) :
    meta.isCommentWith head "" = false := by
  simp [GcodeMeta.isCommentWith, h]

theorem not_prefix_infillPatternText (c : Char) (hd e : List Char) (p : Int) (hc : c ≠ 'I') :
    ¬ (c :: hd <+: (infillPatternText p).data ++ e) := by
  unfold infillPatternText
  split <;> simp [hc]

set_option maxHeartbeats 1000000 in
/-- Among the lines of the settings header, exactly one is a comment that begins with
"Nozzle Diameter: ", whatever the syntax is. -/
theorem header_nozzle_line (meta : GcodeMeta) (sb : SettingsBase) (f0 : Velocity)
    (fp : DoubleOps) (sm : SettingsManager) (syn : GcodeSyntax)
    (hs : NoNL meta.m_comment_starting_delimiter) (he : NoNL meta.m_comment_ending_delimiter)
    (hfp : ∀ r, NoNL (fp.arg r)) :
    (linesOf ((WriterBase.new meta sb f0).writeSettingsHeader fp sm syn)).filter
        (meta.isCommentWith "Nozzle Diameter: ") =
      [(WriterBase.new meta sb f0).comment
        ("Nozzle Diameter: " ++ fp.arg (fp.to_mm sb.kNozzleDiameter) ++ "mm")] := by
  rw [WriterBase.writeSettingsHeader_eq]
  simp only [WriterBase.headerGeometry, WriterBase.headerSpiralize, WriterBase.headerDetail,
    WriterBase.infillPatternLine, String.append_assoc, WriterBase.new_m_sb,
    WriterBase.new_m_newline]
  have hlit : ∀ s : String, '\n' ∉ s.data → NoNL s := fun s h => h
  by_cases hsp : sb.kEnableSpiralize ≠ 0
  · simp only [if_pos hsp, String.append_assoc]
    simp [linesOf_commentLine_append, linesOf_optLine_append, linesOf_optLine_append_not,
      linesOf_optLines_append, linesOf_optLines_append_not, linesOf_newline, NoNL_append, hs, he,
      hfp, NoNL_number, NoNL_infillPatternText, hlit, filter_ite_nil, filter_nil_ite,
      isCommentWith_comment, isCommentWith_empty, not_prefix_infillPatternText, List.filter_cons]
  · simp only [if_neg hsp, String.append_assoc]
    by_cases hm : sb.Infill_kManualLineSpacing ≠ 0 <;> by_cases hp : sb.Skin_kPattern ≠ 0
    all_goals simp only [if_pos hm, if_neg hm, if_pos hp, if_neg hp]
    all_goals simp [linesOf_commentLine_append, linesOf_optLine_append, linesOf_optLine_append_not,
      linesOf_optLines_append, linesOf_optLines_append_not, linesOf_newline, NoNL_append, hs, he,
      hfp, NoNL_number, NoNL_infillPatternText, hlit, filter_ite_nil, filter_nil_ite,
      isCommentWith_comment, isCommentWith_empty, not_prefix_infillPatternText, List.filter_cons]

set_option maxHeartbeats 1000000 in
/-- Among the lines of the settings header, exactly one is a comment that begins with
"Printer Base Offset: ", whatever the syntax is. -/
theorem header_base_offset_line (meta : GcodeMeta) (sb : SettingsBase) (f0 : Velocity)
    (fp : DoubleOps) (sm : SettingsManager) (syn : GcodeSyntax)
    (hs : NoNL meta.m_comment_starting_delimiter) (he : NoNL meta.m_comment_ending_delimiter)
    (hfp : ∀ r, NoNL (fp.arg r)) :
    (linesOf ((WriterBase.new meta sb f0).writeSettingsHeader fp sm syn)).filter
        (meta.isCommentWith "Printer Base Offset: ") =
      [(WriterBase.new meta sb f0).comment
        ("Printer Base Offset: " ++ fp.arg (fp.to_mm sb.kZOffset) ++ "mm")] := by
  rw [WriterBase.writeSettingsHeader_eq]
  simp only [WriterBase.headerGeometry, WriterBase.headerSpiralize, WriterBase.headerDetail,
    WriterBase.infillPatternLine, String.append_assoc, WriterBase.new_m_sb,
    WriterBase.new_m_newline]
  have hlit : ∀ s : String, '\n' ∉ s.data → NoNL s := fun s h => h
  by_cases hsp : sb.kEnableSpiralize ≠ 0
  · simp only [if_pos hsp, String.append_assoc]
    simp [linesOf_commentLine_append, linesOf_optLine_append, linesOf_optLine_append_not,
      linesOf_optLines_append, linesOf_optLines_append_not, linesOf_newline, NoNL_append, hs, he,
      hfp, NoNL_number, NoNL_infillPatternText, hlit, filter_ite_nil, filter_nil_ite,
      isCommentWith_comment, isCommentWith_empty, not_prefix_infillPatternText, List.filter_cons]
  · simp only [if_neg hsp, String.append_assoc]
    by_cases hm : sb.Infill_kManualLineSpacing ≠ 0 <;> by_cases hp : sb.Skin_kPattern ≠ 0
    all_goals simp only [if_pos hm, if_neg hm, if_pos hp, if_neg hp]
    all_goals simp [linesOf_commentLine_append, linesOf_optLine_append, linesOf_optLine_append_not,
      linesOf_optLines_append, linesOf_optLines_append_not, linesOf_newline, NoNL_append, hs, he,
      hfp, NoNL_number, NoNL_infillPatternText, hlit, filter_ite_nil, filter_nil_ite,
      isCommentWith_comment, isCommentWith_empty, not_prefix_infillPatternText, List.filter_cons]

set_option maxHeartbeats 1000000 in
/-- With spiralize enabled, no line of the settings header is a comment that begins with
one of the detail headings. -/
theorem header_spiralize_no_detail_line (meta : GcodeMeta) (sb : SettingsBase) (f0 : Velocity)
    (fp : DoubleOps) (sm : SettingsManager) (syn : GcodeSyntax)
    (hsp : sb.kEnableSpiralize ≠ 0)
    (hs : NoNL meta.m_comment_starting_delimiter) (he : NoNL meta.m_comment_ending_delimiter)
    (hfp : ∀ r, NoNL (fp.arg r)) (head : String) (hh : head ∈ detailHeadings) :
    (linesOf ((WriterBase.new meta sb f0).writeSettingsHeader fp sm syn)).filter
      (meta.isCommentWith head) = [] := by
  rw [WriterBase.writeSettingsHeader_eq]
  simp only [WriterBase.headerGeometry, WriterBase.headerSpiralize, String.append_assoc,
    WriterBase.new_m_sb, WriterBase.new_m_newline, if_pos hsp]
  have hlit : ∀ s : String, '\n' ∉ s.data → NoNL s := fun s h => h
  simp only [detailHeadings, List.mem_cons, List.mem_singleton, List.not_mem_nil,
    or_false] at hh
  rcases hh with rfl | rfl | rfl | rfl | rfl | rfl | rfl | rfl | rfl | rfl
  all_goals simp [linesOf_commentLine_append, linesOf_optLine_append, linesOf_optLine_append_not,
    linesOf_newline, NoNL_append, hs, he, hfp, hlit, filter_ite_nil, filter_nil_ite,
    isCommentWith_comment, isCommentWith_empty, List.filter_cons]

theorem forIn_yield_foldl {α β : Type} (l : List α) (f : β → α → β) (init : β) :
    forIn (m := Id) l init (fun a r => pure (ForInStep.yield (f r a))) = l.foldl f init := by
  induction l generalizing init with
  | nil => rfl
  | cons a l ih => simpa using ih (f init a)

theorem join_cons_eq (a : String) (l : List String) :
    String.join (a :: l) = a ++ String.join l := by
  apply String.ext
  simp [String.data_join]

theorem foldl_append_join {α : Type} (l : List α) (g : α → String) (init : String) :
    l.foldl (fun r a => r ++ g a) init = init ++ String.join (l.map g) := by
  induction l generalizing init with
  | nil => simp [String.join]
  | cons a l ih => simp [ih, join_cons_eq, String.append_assoc]

theorem chop_append_newline (y : String) : QString.chop (y ++ "\n") 1 = y := by
  apply String.ext
  simp [QString.chop, String.data_append]

theorem append_newline_join {α : Type} (l : List α) (g : α → String) (a : String) :
    (a ++ "\n") ++ String.join (l.map (fun el => g el ++ "\n")) =
      (a ++ String.join (l.map (fun el => "\n" ++ g el))) ++ "\n" := by
  induction l generalizing a with
  | nil => simp [String.join]
  | cons el l ih =>
    have h := ih (a ++ "\n" ++ g el)
    simp only [List.map_cons, join_cons_eq, String.append_assoc] at h ⊢
    exact h

theorem linesOf_append_join {α : Type} (l : List α) (g : α → String)
    (hg : ∀ el ∈ l, NoNL (g el)) (a : String) (ha : NoNL a) :
    linesOf (a ++ String.join (l.map (fun el => "\n" ++ g el))) = a :: l.map g := by
  induction l generalizing a with
  | nil =>
    simp only [List.map_nil, String.join, List.foldl_nil, String.append_empty, linesOf]
    rw [splitLines_of_not_mem _ ha]
    rfl
  | cons el l ih =>
    simp only [List.map_cons, join_cons_eq, String.append_assoc]
    rw [linesOf_append_newline _ _ ha, ih (fun e he => hg e (List.mem_cons_of_mem _ he)) _
      (hg el (List.mem_cons_self _ _))]

theorem WriterBase.writeSettingsFooter_eq (meta : GcodeMeta) (sb : SettingsBase)
    (f0 : Velocity) :
    (WriterBase.new meta sb f0).writeSettingsFooter =
      QString.chop ("\n" ++ (WriterBase.new meta sb f0).commentLine "Settings Footer" ++
        String.join (sb.json.map (fun el =>
          (WriterBase.new meta sb f0).commentLine (el.1 ++ " " ++ el.2.dump)))) 1 := by
  unfold WriterBase.writeSettingsFooter
  simp only [Id.run, pure_bind, bind_pure_comp, map_pure, bind, String.empty_append]
  rw [forIn_yield_foldl, foldl_append_join]
  rfl

theorem zeroDoubleOps_noNL (r : Rat) : NoNL (zeroDoubleOps.arg r) := by
  unfold zeroDoubleOps
  simp only
  split <;> decide

/-! ## The Siemens parser -/

/-- C1: each of the two Siemens alias handlers, `BeadAreaHandler` (registered under
"BEAD_AREA", canonical `M3Handler`) and `ExtruderOffHandler` (registered under
"WHEN TRUE DO EXTR_END=2.0", canonical `M5Handler`), leaves for every parser state and
every parameter list exactly the state (and the outcome) the canonical handler leaves; and
the handler `config` binds to each alias mnemonic behaves so. -/
theorem siemens_alias_handlers_equal_canonical (base : CommonParser) (params : List String)
    (s : ParserState) :
    SiemensParser.BeadAreaHandler base params s = base.M3Handler params s ∧
    SiemensParser.ExtruderOffHandler base params s = base.M5Handler params s ∧
    (∃ h, (SiemensParser.config base).resolve "BEAD_AREA" = some h ∧
      h params s = base.M3Handler params s) ∧
    (∃ h, (SiemensParser.config base).resolve "WHEN TRUE DO EXTR_END=2.0" = some h ∧
      h params s = base.M5Handler params s) := by
  refine ⟨rfl, rfl, ⟨SiemensParser.BeadAreaHandler base, ?_, rfl⟩,
    ⟨SiemensParser.ExtruderOffHandler base, ?_, rfl⟩⟩
  · simp [SiemensParser.config, CommandMapping.resolve, addCommandMapping]
  · simp [SiemensParser.config, CommandMapping.resolve, addCommandMapping]

/-- C2: for every parser state and parameter list, `SiemensParser::G1Handler` runs the
canonical G1 handler first; when that handler completes, the state `G1Handler` leaves is
the canonical handler's resulting state in every field (extruder-on vector, position,
accumulated comment, feedrate, and the mnemonic, parameters and line number of the current
command) except the current command's comment, which is the canonical handler's resulting
comment followed by "1"; when it throws, its exception and state are passed on. -/
theorem siemens_G1Handler_appends_suffix (base : CommonParser) (params : List String)
    (s : ParserState) :
    match base.G1Handler params s with
    | (.ok _, s') =>
      SiemensParser.G1Handler base params s =
        (.ok (), { s' with m_current_gcode_command :=
          { s'.m_current_gcode_command with
            m_comment := s'.m_current_gcode_command.m_comment ++ "1" } }) ∧
      (SiemensParser.G1Handler base params s).2.m_extruders_on = s'.m_extruders_on ∧
      (SiemensParser.G1Handler base params s).2.m_position = s'.m_position ∧
      (SiemensParser.G1Handler base params s).2.m_comment = s'.m_comment ∧
      (SiemensParser.G1Handler base params s).2.m_feedrate = s'.m_feedrate ∧
      (SiemensParser.G1Handler base params s).2.m_current_gcode_command.m_command =
        s'.m_current_gcode_command.m_command ∧
      (SiemensParser.G1Handler base params s).2.m_current_gcode_command.m_parameters =
        s'.m_current_gcode_command.m_parameters ∧
      (SiemensParser.G1Handler base params s).2.m_current_gcode_command.m_line_number =
        s'.m_current_gcode_command.m_line_number ∧
      (SiemensParser.G1Handler base params s).2.m_current_gcode_command.m_comment =
        s'.m_current_gcode_command.m_comment ++ "1"
    | (.error e, s') => SiemensParser.G1Handler base params s = (.error e, s') := by
  unfold SiemensParser.G1Handler
  rcases h : base.G1Handler params s with ⟨r, s'⟩
  cases r with
  | error e => simp
  | ok u => cases u; simp [GcodeCommand.getComment, GcodeCommand.setComment]

/-! ## The writer -/

/-- C7: for every syntax name and current year, `writeSlicerHeader` returns the opening
followed, in this order, by the product-name comment line, the comment line "Copyright"
with the year in decimal, the comment line "G-Code Syntax:" with the syntax name, and one
blank line,
each comment line being the text between the comment delimiters and a newline. The opening
is the comment line "---BEGIN HEADER" for the syntax named Ingersoll, the bare line "%" for
the syntax named Meltio, and nothing for every other syntax; so for Meltio (a name other
than Ingersoll's) the first character of the output is the percent sign. -/
theorem writeSlicerHeader_layout (meta : GcodeMeta) (sb : SettingsBase) (f0 : Velocity)
    (names : Constants.PrinterSettings.SyntaxString) (master_version : Rat) (year : Int)
    (syn : String) :
    (WriterBase.new meta sb f0).writeSlicerHeader names master_version year syn =
      (if syn = names.kIngersoll then
          meta.m_comment_starting_delimiter ++ "---BEGIN HEADER" ++
            meta.m_comment_ending_delimiter ++ "\n"
        else if syn = names.kMeltio then "%\n"
        else "") ++
        (meta.m_comment_starting_delimiter ++ "Nedcam shaping technology" ++
          meta.m_comment_ending_delimiter ++ "\n") ++
        (meta.m_comment_starting_delimiter ++ ("Copyright " ++ toString year) ++
          meta.m_comment_ending_delimiter ++ "\n") ++
        (meta.m_comment_starting_delimiter ++ ("G-Code Syntax: " ++ syn) ++
          meta.m_comment_ending_delimiter ++ "\n") ++
        "\n" ∧
    (names.kMeltio ≠ names.kIngersoll →
      ((WriterBase.new meta sb f0).writeSlicerHeader names master_version year
        names.kMeltio).data.head? = some '%') := by
  have key : ∀ syn : String,
      (WriterBase.new meta sb f0).writeSlicerHeader names master_version year syn =
      (if syn = names.kIngersoll then
          meta.m_comment_starting_delimiter ++ "---BEGIN HEADER" ++
            meta.m_comment_ending_delimiter ++ "\n"
        else if syn = names.kMeltio then "%\n"
        else "") ++
        (meta.m_comment_starting_delimiter ++ "Nedcam shaping technology" ++
          meta.m_comment_ending_delimiter ++ "\n") ++
        (meta.m_comment_starting_delimiter ++ ("Copyright " ++ toString year) ++
          meta.m_comment_ending_delimiter ++ "\n") ++
        (meta.m_comment_starting_delimiter ++ ("G-Code Syntax: " ++ syn) ++
          meta.m_comment_ending_delimiter ++ "\n") ++
        "\n" := by
    intro syn
    unfold WriterBase.writeSlicerHeader
    simp only [Id.run, pure_bind, WriterBase.new_m_newline, WriterBase.commentLine,
      WriterBase.new_m_meta, QString.number]
    by_cases h1 : syn = names.kIngersoll
    · simp [h1, String.append_assoc, pure]
    · by_cases h2 : syn = names.kMeltio
      · subst h2
        simp [h1, String.append_assoc, pure]
      · simp [h1, h2, String.append_assoc, pure]
  refine ⟨key syn, fun hne => ?_⟩
  rw [key names.kMeltio]
  simp [hne, String.append_assoc]

/-- C7, at the year 2026 with the delimiters "(" and ")" and the syntax names "Ingersoll"
and "Meltio": the three headers, for Ingersoll, for Meltio and for Siemens, spelled out. -/
theorem writeSlicerHeader_layout_witness :
    (WriterBase.new parenMeta plainSettings 0).writeSlicerHeader dialectNames 1 2026
        "Ingersoll" =
      "(---BEGIN HEADER)\n(Nedcam shaping technology)\n(Copyright 2026)\n" ++
        "(G-Code Syntax: Ingersoll)\n\n" ∧
    (WriterBase.new parenMeta plainSettings 0).writeSlicerHeader dialectNames 1 2026
        "Meltio" =
      "%\n(Nedcam shaping technology)\n(Copyright 2026)\n(G-Code Syntax: Meltio)\n\n" ∧
    (WriterBase.new parenMeta plainSettings 0).writeSlicerHeader dialectNames 1 2026
        "Siemens" =
      "(Nedcam shaping technology)\n(Copyright 2026)\n(G-Code Syntax: Siemens)\n\n" ∧
    ((WriterBase.new parenMeta plainSettings 0).writeSlicerHeader dialectNames 1 2026
      dialectNames.kMeltio).data.head? = some '%' :=
  ⟨((writeSlicerHeader_layout parenMeta plainSettings 0 dialectNames 1 2026 "Ingersoll").1).trans
      (by decide),
   ((writeSlicerHeader_layout parenMeta plainSettings 0 dialectNames 1 2026 "Meltio").1).trans
      (by decide),
   ((writeSlicerHeader_layout parenMeta plainSettings 0 dialectNames 1 2026 "Siemens").1).trans
      (by decide),
   (writeSlicerHeader_layout parenMeta plainSettings 0 dialectNames 1 2026 "Siemens").2
      (by decide)⟩

/-- C9: for every settings snapshot whose nozzle count is `N`, the extruder-on vector of a
`WriterBase` right after construction has length `N` with every entry off, and every
member function of `writer_base.cpp` (`comment`, `commentLine`, `commentSpaceLine`,
`writeSlicerHeader`, `writeSettingsHeader`, `writeLayerChange`, `writeSettingsFooter`,
`writeEmptyStep`, `writeCommentLine`, `setFeedrate`, `getFeedrate`), called on any writer,
leaves the vector as it was; so it is still that vector after any sequence of calls. -/
theorem writer_extruder_vector_integrity (meta : GcodeMeta) (sb : SettingsBase)
    (f0 : Velocity) (N : Nat) (hN : sb.kNozzleCount = (N : Int)) :
    (WriterBase.new meta sb f0).m_extruders_on.length = N ∧
    (WriterBase.new meta sb f0).m_extruders_on = List.replicate N false ∧
    (∀ (w : WriterBase) (env : WriterEnv) (c : WriterCall),
      (w.call env c).1.m_extruders_on = w.m_extruders_on) ∧
    (∀ (env : WriterEnv) (cs : List WriterCall),
      ((WriterBase.new meta sb f0).run env cs).m_extruders_on = List.replicate N false) := by
  have h0 : (WriterBase.new meta sb f0).m_extruders_on = List.replicate N false := by
    simp [WriterBase.new, hN]
  refine ⟨by rw [h0, List.length_replicate], h0, WriterBase.call_m_extruders_on, ?_⟩
  intro env cs
  rw [WriterBase.run_m_extruders_on, h0]

/-- C9, at the concrete snapshot `plainSettings` (one nozzle). -/
theorem writer_extruder_vector_integrity_witness :
    plainSettings.kNozzleCount = ((1 : Nat) : Int) ∧
    (WriterBase.new parenMeta plainSettings 0).m_extruders_on.length = 1 ∧
    (WriterBase.new parenMeta plainSettings 0).m_extruders_on = List.replicate 1 false ∧
    (∀ (w : WriterBase) (env : WriterEnv) (c : WriterCall),
      (w.call env c).1.m_extruders_on = w.m_extruders_on) ∧
    (∀ (env : WriterEnv) (cs : List WriterCall),
      ((WriterBase.new parenMeta plainSettings 0).run env cs).m_extruders_on =
        List.replicate 1 false) :=
  ⟨by decide, writer_extruder_vector_integrity parenMeta plainSettings 0 1 (by decide)⟩

/-- C10: the dialect-family condition of `writeSettingsHeader` is dead. For every settings
snapshot and fixed global settings, any two syntaxes other than Ingersoll give the same
text; and when spiralize is disabled, that common text is the geometry block and the detail
block followed by the final blank line, while the text for Ingersoll is the same two blocks,
then the comment line "---END HEADER" (the marker between the comment delimiters, and a
newline), then the final blank line. -/
theorem settingsHeader_depends_on_ingersoll_only (meta : GcodeMeta) (sb : SettingsBase)
    (f0 : Velocity) (fp : DoubleOps) (sm : SettingsManager) :
    (∀ s1 s2 : GcodeSyntax, s1 ≠ .kIngersoll → s2 ≠ .kIngersoll →
      (WriterBase.new meta sb f0).writeSettingsHeader fp sm s1 =
        (WriterBase.new meta sb f0).writeSettingsHeader fp sm s2) ∧
    (sb.kEnableSpiralize = 0 →
      (∀ s : GcodeSyntax, s ≠ .kIngersoll →
        (WriterBase.new meta sb f0).writeSettingsHeader fp sm s =
          ((WriterBase.new meta sb f0).headerGeometry fp ++
            (WriterBase.new meta sb f0).headerDetail fp sm) ++ "\n") ∧
      (WriterBase.new meta sb f0).writeSettingsHeader fp sm .kIngersoll =
        ((WriterBase.new meta sb f0).headerGeometry fp ++
          (WriterBase.new meta sb f0).headerDetail fp sm) ++
          (meta.m_comment_starting_delimiter ++ "---END HEADER" ++
            meta.m_comment_ending_delimiter ++ "\n") ++ "\n") := by
  constructor
  · intro s1 s2 h1 h2
    simp only [WriterBase.writeSettingsHeader_eq, if_neg h1, if_neg h2]
  · intro hsp
    refine ⟨?_, ?_⟩
    · intro s hs
      simp [WriterBase.writeSettingsHeader_eq, hs, hsp, WriterBase.new_m_sb,
        WriterBase.new_m_newline, String.append_assoc]
    · simp [WriterBase.writeSettingsHeader_eq, hsp, WriterBase.new_m_sb,
        WriterBase.new_m_newline, WriterBase.new_m_meta, WriterBase.commentLine,
        String.append_assoc]

set_option maxRecDepth 100000 in
/-- C10, at the concrete snapshot `detailedSettings` (spiralize disabled) with the
delimiters "(" and ")" and global smoothing on: the header for Siemens and the one for
Meltio are the same text, spelled out, and the header for Ingersoll is that text with the
line "(---END HEADER)" before the final blank line. -/
theorem settingsHeader_depends_on_ingersoll_only_witness :
    (WriterBase.new parenMeta detailedSettings 0).writeSettingsHeader zeroDoubleOps ⟨true⟩
        .kSiemens =
      (WriterBase.new parenMeta detailedSettings 0).writeSettingsHeader zeroDoubleOps ⟨true⟩
        .kMeltio ∧
    (WriterBase.new parenMeta detailedSettings 0).writeSettingsHeader zeroDoubleOps ⟨true⟩
        .kSiemens =
      "(Slicing Parameters)\n(Nozzle Diameter: 0mm)\n(Printer Base Offset: 0mm)\n" ++
        "(Minimum Table Value: 0mm)\n(Layer Height: 0mm)\n(Default Extrusion Width: 0mm)\n" ++
        "(Perimeter Count: 3)\n(Upskin Count: 2)\n(Downskin Count: 0)\n" ++
        "(Skin Patern: Concentric)\n(Infill Percentage: 0%)\n(Infill Pattern: Honeycomb)\n" ++
        "(Smoothing is turned ON)\n(ANGLED SLICING ENABLED)\n" ++
        "\n" ∧
    (WriterBase.new parenMeta detailedSettings 0).writeSettingsHeader zeroDoubleOps ⟨true⟩
        .kIngersoll =
      "(Slicing Parameters)\n(Nozzle Diameter: 0mm)\n(Printer Base Offset: 0mm)\n" ++
        "(Minimum Table Value: 0mm)\n(Layer Height: 0mm)\n(Default Extrusion Width: 0mm)\n" ++
        "(Perimeter Count: 3)\n(Upskin Count: 2)\n(Downskin Count: 0)\n" ++
        "(Skin Patern: Concentric)\n(Infill Percentage: 0%)\n(Infill Pattern: Honeycomb)\n" ++
        "(Smoothing is turned ON)\n(ANGLED SLICING ENABLED)\n" ++
        "(---END HEADER)\n" ++
        "\n" :=
  ⟨(settingsHeader_depends_on_ingersoll_only parenMeta detailedSettings 0 zeroDoubleOps
      ⟨true⟩).1 .kSiemens .kMeltio (by decide) (by decide),
   (((settingsHeader_depends_on_ingersoll_only parenMeta detailedSettings 0 zeroDoubleOps
      ⟨true⟩).2 (by decide)).1 .kSiemens (by decide)).trans (by decide),
   (((settingsHeader_depends_on_ingersoll_only parenMeta detailedSettings 0 zeroDoubleOps
      ⟨true⟩).2 (by decide)).2).trans (by decide)⟩

/-- C8: for every syntax and every settings snapshot in which spiralize is enabled, the
settings header is the geometry block, which ends with the "Default Extrusion Width" line,
followed by exactly: the line "Spiralize is turned ON", the line "Smoothing is turned ON"
if and only if the smoothing flag of the snapshot is set, the "Oversize part by" line if
and only if oversize is enabled, and one blank line. No perimeter, inset, skin, infill,
forced-layer-time or angled-slicing line is part of it: a snapshot that agrees on the
settings named in this text gives the same text, whatever its other settings, the global
settings and the syntax are; and, for comment delimiters and number renderings without a
newline, no line of the text is a comment beginning with one of the headings of those
lines. -/
theorem settingsHeader_spiralize_short_circuits (meta : GcodeMeta) (sb : SettingsBase)
    (f0 : Velocity) (fp : DoubleOps) (sm : SettingsManager) (syn : GcodeSyntax)
    (hsp : sb.kEnableSpiralize ≠ 0) :
    (WriterBase.new meta sb f0).writeSettingsHeader fp sm syn =
      (WriterBase.new meta sb f0).headerGeometry fp ++
        (WriterBase.new meta sb f0).commentLine "Spiralize is turned ON" ++
        (if sb.kSmoothing ≠ 0 then
          (WriterBase.new meta sb f0).commentLine "Smoothing is turned ON" else "") ++
        (if sb.kEnableOversize ≠ 0 then
          (WriterBase.new meta sb f0).commentLine
            ("Oversize part by: " ++ fp.arg (fp.to_mm sb.kOversizeDistance) ++ "mm")
         else "") ++
        "\n" ∧
    (∃ pre : String, (WriterBase.new meta sb f0).headerGeometry fp =
      pre ++ (WriterBase.new meta sb f0).commentLine
        ("Default Extrusion Width: " ++ fp.arg (fp.to_mm sb.kBeadWidth) ++ "mm")) ∧
    (∀ (sb2 : SettingsBase) (sm2 : SettingsManager) (syn2 : GcodeSyntax),
      sb2.kNozzleDiameter = sb.kNozzleDiameter → sb2.kMachineType = sb.kMachineType →
      sb2.Filament_kDiameter = sb.Filament_kDiameter → sb2.kZOffset = sb.kZOffset →
      sb2.kEnableW = sb.kEnableW → sb2.kWMin = sb.kWMin →
      sb2.kLayerHeight = sb.kLayerHeight → sb2.kBeadWidth = sb.kBeadWidth →
      sb2.kEnableSpiralize = sb.kEnableSpiralize → sb2.kSmoothing = sb.kSmoothing →
      sb2.kEnableOversize = sb.kEnableOversize →
      sb2.kOversizeDistance = sb.kOversizeDistance →
      (WriterBase.new meta sb2 f0).writeSettingsHeader fp sm2 syn2 =
        (WriterBase.new meta sb f0).writeSettingsHeader fp sm syn) ∧
    (NoNL meta.m_comment_starting_delimiter → NoNL meta.m_comment_ending_delimiter →
      (∀ r, NoNL (fp.arg r)) → ∀ head ∈ detailHeadings,
        (linesOf ((WriterBase.new meta sb f0).writeSettingsHeader fp sm syn)).filter
          (meta.isCommentWith head) = []) := by
  refine ⟨?_, ⟨_, rfl⟩, ?_, fun hs he hfp head hh =>
    header_spiralize_no_detail_line meta sb f0 fp sm syn hsp hs he hfp head hh⟩
  · simp [WriterBase.writeSettingsHeader_eq, WriterBase.headerSpiralize, hsp,
      WriterBase.new_m_sb, WriterBase.new_m_newline, String.append_assoc]
  · intro sb2 sm2 syn2 h1 h2 h3 h4 h5 h6 h7 h8 h9 h10 h11 h12
    have hsp2 : sb2.kEnableSpiralize ≠ 0 := by rw [h9]; exact hsp
    simp [WriterBase.writeSettingsHeader_eq, WriterBase.headerSpiralize,
      WriterBase.headerGeometry, WriterBase.commentLine, hsp, hsp2, WriterBase.new_m_sb,
      WriterBase.new_m_newline, WriterBase.new_m_meta, h1, h2, h3, h4, h5, h6, h7, h8, h10,
      h11, h12]

/-- C8, at the concrete snapshot `spiralSettings`: the header for Siemens is spelled out,
and the snapshot that also enables perimeters, infill and forced layer time, under another
syntax and with global smoothing on, gives the same text. -/
theorem settingsHeader_spiralize_short_circuits_witness :
    (WriterBase.new parenMeta spiralSettings 0).writeSettingsHeader zeroDoubleOps ⟨false⟩
        .kSiemens =
      "(Slicing Parameters)\n(Nozzle Diameter: 0mm)\n(Printer Base Offset: 0mm)\n" ++
        "(Layer Height: 0mm)\n(Default Extrusion Width: 0mm)\n(Spiralize is turned ON)\n\n" ∧
    (WriterBase.new parenMeta
        { spiralSettings with
          Perimeter_kEnable := 1, Perimeter_kCount := 3, Infill_kEnable := 1,
          kForceMinLayerTime := 1, kStackingDirectionYaw := 1 } 0).writeSettingsHeader
        zeroDoubleOps ⟨true⟩ .kMeltio =
      (WriterBase.new parenMeta spiralSettings 0).writeSettingsHeader zeroDoubleOps ⟨false⟩
        .kSiemens ∧
    (∀ head ∈ detailHeadings,
      (linesOf ((WriterBase.new parenMeta spiralSettings 0).writeSettingsHeader zeroDoubleOps
        ⟨false⟩ .kSiemens)).filter (parenMeta.isCommentWith head) = []) :=
  ⟨((settingsHeader_spiralize_short_circuits parenMeta spiralSettings 0 zeroDoubleOps ⟨false⟩
      .kSiemens (by decide)).1).trans (by decide),
   (settingsHeader_spiralize_short_circuits parenMeta spiralSettings 0 zeroDoubleOps ⟨false⟩
      .kSiemens (by decide)).2.2.1 _ ⟨true⟩ .kMeltio rfl rfl rfl rfl rfl rfl rfl rfl rfl rfl rfl
      rfl,
   (settingsHeader_spiralize_short_circuits parenMeta spiralSettings 0 zeroDoubleOps ⟨false⟩
      .kSiemens (by decide)).2.2.2 (by decide) (by decide) zeroDoubleOps_noNL⟩

/-- C3, evaluated: for the syntax Ingersoll, the comment delimiters "(" and ")" and the
snapshot `spiralSettings` (spiralize enabled), `writeSettingsHeader` returns the text
below, whose last comment line is "Spiralize is turned ON": the "---END HEADER" comment
line followed by the blank line is not how the text ends. With spiralize disabled
(`plainSettings`) the text of the same call does close with that marker and the blank
line. -/
theorem settingsHeader_ingersoll_spiralize_unclosed :
    (WriterBase.new parenMeta spiralSettings 0).writeSettingsHeader zeroDoubleOps ⟨false⟩
        .kIngersoll =
      "(Slicing Parameters)\n(Nozzle Diameter: 0mm)\n(Printer Base Offset: 0mm)\n" ++
        "(Layer Height: 0mm)\n(Default Extrusion Width: 0mm)\n(Spiralize is turned ON)\n\n" ∧
    ¬ (((WriterBase.new parenMeta spiralSettings 0).commentLine "---END HEADER" ++ "\n").data <:+
      ((WriterBase.new parenMeta spiralSettings 0).writeSettingsHeader zeroDoubleOps ⟨false⟩
        .kIngersoll).data) ∧
    (((WriterBase.new parenMeta plainSettings 0).commentLine "---END HEADER" ++ "\n").data <:+
      ((WriterBase.new parenMeta plainSettings 0).writeSettingsHeader zeroDoubleOps ⟨false⟩
        .kIngersoll).data) := by
  refine ⟨by decide, by decide, by decide⟩

/-- C4, evaluated: two runs of `writeSettingsHeader` with the same settings snapshot
(`plainSettings`), the same comment delimiters and the same syntax (Siemens) return
different texts when the global setting "useSmoothing" differs between the runs. -/
theorem settingsHeader_reads_global_useSmoothing :
    (WriterBase.new parenMeta plainSettings 0).writeSettingsHeader zeroDoubleOps ⟨true⟩
        .kSiemens =
      "(Slicing Parameters)\n(Nozzle Diameter: 0mm)\n(Printer Base Offset: 0mm)\n" ++
        "(Layer Height: 0mm)\n(Default Extrusion Width: 0mm)\n(Smoothing is turned ON)\n\n" ∧
    (WriterBase.new parenMeta plainSettings 0).writeSettingsHeader zeroDoubleOps ⟨false⟩
        .kSiemens =
      "(Slicing Parameters)\n(Nozzle Diameter: 0mm)\n(Printer Base Offset: 0mm)\n" ++
        "(Layer Height: 0mm)\n(Default Extrusion Width: 0mm)\n\n" ∧
    (WriterBase.new parenMeta plainSettings 0).writeSettingsHeader zeroDoubleOps ⟨true⟩
        .kSiemens ≠
      (WriterBase.new parenMeta plainSettings 0).writeSettingsHeader zeroDoubleOps ⟨false⟩
        .kSiemens := by
  refine ⟨by decide, by decide, by decide⟩

/-- C5: for every settings snapshot, every syntax `s1` of the family list (Cincinnati,
HaasInch, Meld, ORNL, SheetLamination, Siemens, SkyBaam) and every syntax `s2` outside it,
the settings header for `s1` and the one for `s2` each have exactly one comment line that
begins with "Nozzle Diameter: " and exactly one that begins with "Printer Base Offset: ",
and these lines are the same in both outputs: the comments "Nozzle Diameter: ..mm" and
"Printer Base Offset: ..mm" of the snapshot's values. Lines are taken for comment
delimiters and number renderings that hold no newline. -/
theorem settingsHeader_family_lines_identical (meta : GcodeMeta) (sb : SettingsBase)
    (f0 : Velocity) (fp : DoubleOps) (sm1 sm2 : SettingsManager)
    (hs : NoNL meta.m_comment_starting_delimiter) (he : NoNL meta.m_comment_ending_delimiter)
    (hfp : ∀ r, NoNL (fp.arg r)) :
    ∀ s1 s2 : GcodeSyntax, s1.inFamilyList = true → s2.inFamilyList = false →
      (linesOf ((WriterBase.new meta sb f0).writeSettingsHeader fp sm1 s1)).filter
          (meta.isCommentWith "Nozzle Diameter: ") =
        [(WriterBase.new meta sb f0).comment
          ("Nozzle Diameter: " ++ fp.arg (fp.to_mm sb.kNozzleDiameter) ++ "mm")] ∧
      (linesOf ((WriterBase.new meta sb f0).writeSettingsHeader fp sm2 s2)).filter
          (meta.isCommentWith "Nozzle Diameter: ") =
        [(WriterBase.new meta sb f0).comment
          ("Nozzle Diameter: " ++ fp.arg (fp.to_mm sb.kNozzleDiameter) ++ "mm")] ∧
      (linesOf ((WriterBase.new meta sb f0).writeSettingsHeader fp sm1 s1)).filter
          (meta.isCommentWith "Printer Base Offset: ") =
        [(WriterBase.new meta sb f0).comment
          ("Printer Base Offset: " ++ fp.arg (fp.to_mm sb.kZOffset) ++ "mm")] ∧
      (linesOf ((WriterBase.new meta sb f0).writeSettingsHeader fp sm2 s2)).filter
          (meta.isCommentWith "Printer Base Offset: ") =
        [(WriterBase.new meta sb f0).comment
          ("Printer Base Offset: " ++ fp.arg (fp.to_mm sb.kZOffset) ++ "mm")] :=
  fun s1 s2 _ _ =>
    ⟨header_nozzle_line meta sb f0 fp sm1 s1 hs he hfp,
     header_nozzle_line meta sb f0 fp sm2 s2 hs he hfp,
     header_base_offset_line meta sb f0 fp sm1 s1 hs he hfp,
     header_base_offset_line meta sb f0 fp sm2 s2 hs he hfp⟩

/-- C5, at the concrete snapshot `plainSettings` with the delimiters "(" and ")", for
Siemens (in the family list) and Ingersoll (outside it). -/
theorem settingsHeader_family_lines_identical_witness :
    (linesOf ((WriterBase.new parenMeta plainSettings 0).writeSettingsHeader zeroDoubleOps
        ⟨false⟩ .kSiemens)).filter (parenMeta.isCommentWith "Nozzle Diameter: ") =
      ["(Nozzle Diameter: 0mm)"] ∧
    (linesOf ((WriterBase.new parenMeta plainSettings 0).writeSettingsHeader zeroDoubleOps
        ⟨true⟩ .kIngersoll)).filter (parenMeta.isCommentWith "Nozzle Diameter: ") =
      ["(Nozzle Diameter: 0mm)"] ∧
    (linesOf ((WriterBase.new parenMeta plainSettings 0).writeSettingsHeader zeroDoubleOps
        ⟨false⟩ .kSiemens)).filter (parenMeta.isCommentWith "Printer Base Offset: ") =
      ["(Printer Base Offset: 0mm)"] ∧
    (linesOf ((WriterBase.new parenMeta plainSettings 0).writeSettingsHeader zeroDoubleOps
        ⟨true⟩ .kIngersoll)).filter (parenMeta.isCommentWith "Printer Base Offset: ") =
      ["(Printer Base Offset: 0mm)"] :=
  settingsHeader_family_lines_identical parenMeta plainSettings 0 zeroDoubleOps ⟨false⟩ ⟨true⟩
    (by decide) (by decide) zeroDoubleOps_noNL .kSiemens .kIngersoll (by decide) (by decide)

/-- C6: for every settings snapshot with items `(k1, v1), ..., (kn, vn)` in the order of the
settings document (`n` may be zero), `writeSettingsFooter` returns the text made of a
newline, the comment line "Settings Footer" and, for each item in that order, the comment
line "ki vi" (key, one space, compact value), with exactly its last character, the final
newline, removed. When the comment delimiters, the keys and the values hold no newline,
the lines of the returned text are: an empty line, the comment "Settings Footer", and one
comment per key in the order of the snapshot; so there is no blank line between entries
and no newline at the end. -/
theorem settingsFooter_layout (meta : GcodeMeta) (sb : SettingsBase) (f0 : Velocity) :
    (WriterBase.new meta sb f0).writeSettingsFooter =
      QString.chop ("\n" ++ (WriterBase.new meta sb f0).commentLine "Settings Footer" ++
        String.join (sb.json.map (fun el =>
          (WriterBase.new meta sb f0).commentLine (el.1 ++ " " ++ el.2.dump)))) 1 ∧
    (WriterBase.new meta sb f0).writeSettingsFooter ++ "\n" =
      "\n" ++ (WriterBase.new meta sb f0).commentLine "Settings Footer" ++
        String.join (sb.json.map (fun el =>
          (WriterBase.new meta sb f0).commentLine (el.1 ++ " " ++ el.2.dump))) ∧
    (NoNL meta.m_comment_starting_delimiter → NoNL meta.m_comment_ending_delimiter →
      (∀ el ∈ sb.json, NoNL el.1 ∧ NoNL el.2.dump) →
      linesOf (WriterBase.new meta sb f0).writeSettingsFooter =
        "" :: (WriterBase.new meta sb f0).comment "Settings Footer" ::
          sb.json.map (fun el => (WriterBase.new meta sb f0).comment (el.1 ++ " " ++ el.2.dump))) := by
  have key : "\n" ++ (WriterBase.new meta sb f0).commentLine "Settings Footer" ++
        String.join (sb.json.map (fun el =>
          (WriterBase.new meta sb f0).commentLine (el.1 ++ " " ++ el.2.dump))) =
      ("\n" ++ (WriterBase.new meta sb f0).comment "Settings Footer" ++
        String.join (sb.json.map (fun el =>
          "\n" ++ (WriterBase.new meta sb f0).comment (el.1 ++ " " ++ el.2.dump)))) ++ "\n" := by
    have h := append_newline_join sb.json
      (fun el => (WriterBase.new meta sb f0).comment (el.1 ++ " " ++ el.2.dump))
      ("\n" ++ (WriterBase.new meta sb f0).comment "Settings Footer")
    simpa [WriterBase.commentLine, WriterBase.comment, WriterBase.new_m_newline,
      String.append_assoc] using h
  have hf : (WriterBase.new meta sb f0).writeSettingsFooter =
      "\n" ++ (WriterBase.new meta sb f0).comment "Settings Footer" ++
        String.join (sb.json.map (fun el =>
          "\n" ++ (WriterBase.new meta sb f0).comment (el.1 ++ " " ++ el.2.dump))) := by
    rw [WriterBase.writeSettingsFooter_eq, key, chop_append_newline]
  refine ⟨WriterBase.writeSettingsFooter_eq meta sb f0, ?_, ?_⟩
  · rw [key, hf]
  · intro hs he hj
    rw [hf, String.append_assoc]
    have e : linesOf ("\n" ++ ((WriterBase.new meta sb f0).comment "Settings Footer" ++
        String.join (sb.json.map (fun el =>
          "\n" ++ (WriterBase.new meta sb f0).comment (el.1 ++ " " ++ el.2.dump))))) =
        "" :: linesOf ((WriterBase.new meta sb f0).comment "Settings Footer" ++
        String.join (sb.json.map (fun el =>
          "\n" ++ (WriterBase.new meta sb f0).comment (el.1 ++ " " ++ el.2.dump)))) := by
      have := linesOf_append_newline "" ((WriterBase.new meta sb f0).comment "Settings Footer" ++
        String.join (sb.json.map (fun el =>
          "\n" ++ (WriterBase.new meta sb f0).comment (el.1 ++ " " ++ el.2.dump)))) (by decide)
      simpa using this
    rw [e, linesOf_append_join]
    · intro el hel
      have := hj el hel
      simp [WriterBase.comment, WriterBase.new_m_meta, NoNL_append, hs, he, this.1, this.2]
      decide
    · simp [WriterBase.comment, WriterBase.new_m_meta, NoNL_append, hs, he]
      decide

/-- C6, at the concrete snapshot `plainSettings` (two items) with the delimiters "(" and
")". -/
theorem settingsFooter_layout_witness :
    (WriterBase.new parenMeta plainSettings 0).writeSettingsFooter =
      "\n(Settings Footer)\n(layer_height 0.0)\n(spiralize false)" ∧
    linesOf (WriterBase.new parenMeta plainSettings 0).writeSettingsFooter =
      ["", "(Settings Footer)", "(layer_height 0.0)", "(spiralize false)"] :=
  ⟨((settingsFooter_layout parenMeta plainSettings 0).1).trans (by decide),
   (settingsFooter_layout parenMeta plainSettings 0).2.2 (by decide) (by decide) (by decide)⟩

end ORNL
